import Mathlib

/-!
# Receiver UI state machine

A shallow embedding of `internal/tui/receiver.go`: the model `receiverUIModel`,
its message handler `Update`, its renderer `View`, and `resetSpinner` /
`NewReceiverUI`.

Everything that `receiver.go` imports but does not define (the `constants` and
`tools` packages, the other files of package `tui`, and the `spinner`,
`progress`, `lipgloss`, `wordwrap`, `indent` and `strings` libraries) is
collected in the structure `Env` and taken as a parameter, so every theorem
stated for an arbitrary `env` holds for whatever those collaborators are.
Go's `int` is taken as 64 bits wide; `int64` byte counts are integers that no
arithmetic is done on.
-/

namespace Tui

/-! ## Data model -/

/-- The Go type `uiState` is a plain `int`; any integer is a value of it. -/
abbrev uiState := Int

/-- First constant of the `iota` block. -/
abbrev showEstablishing : uiState := 0

/-- Second constant of the `iota` block. -/
abbrev showReceivingProgress : uiState := 1

/-- Third constant of the `iota` block. -/
abbrev showFinished : uiState := 2

/-- Fourth constant of the `iota` block. -/
abbrev showError : uiState := 3

/-- A `lipgloss.Style`, as far as `receiver.go` builds one: the zero style
(`NewStyle()`) with an optional foreground colour. -/
structure Style where
  foreground : Option String := none
  deriving DecidableEq, Repr

/-- A `spinner.Spinner`: the symbol set and its frame interval. -/
structure Spinner where
  Frames : List String
  FPS : Nat
  deriving DecidableEq, Repr

/-- A `spinner.Model`: the exported fields `Spinner` and `Style` that
`resetSpinner` assigns, and the animation state the library keeps. -/
structure SpinnerModel where
  Spinner : Spinner
  Style : Style
  frame : Int
  id : Int
  tag : Int
  deriving DecidableEq, Repr

/-- A `progress.Model`: the exported field `Width` that `Update` assigns, and
the fill state the library keeps. -/
structure ProgressModel where
  Width : Int
  percentShown : Float
  targetPercent : Float
  id : Int
  tag : Int

/-- A `tea.Cmd`, the follow-up action returned by `Update`. `nil` is Go's nil
command, `spinnerTick` is `spinner.Tick`, `quit` is `tea.Quit`, and `sub n`
stands for a command handed back by a sub-model (spinner or progress bar). -/
inductive Cmd where
  | nil
  | spinnerTick
  | quit
  | sub (n : Nat)
  deriving DecidableEq, Repr

/-- A `tea.Msg`, by dynamic type. `KeyMsg` carries the result of
`msg.String()`, `ProgressMsg` carries `float64(msg.Progress)`;
`spinnerTickMsg` and `unknown` are dynamic types that `Update` has no case
for. -/
inductive Msg where
  | FileInfoMsg (Bytes : Int)
  | ProgressMsg (Progress : Float)
  | FinishedMsg (Files : List String) (PayloadSize : Int)
  | ErrorMsg (Message : String)
  | KeyMsg (str : String)
  | WindowSizeMsg (Width : Int) (Height : Int)
  | FrameMsg (id : Int) (tag : Int)
  | spinnerTickMsg (ID : Int) (tag : Int)
  | unknown (n : Nat)

/-- The struct `receiverUIModel`. -/
structure receiverUIModel where
  state : uiState
  receivedFiles : List String
  payloadSize : Int
  decompressedPayloadSize : Int
  spinner : SpinnerModel
  progressBar : ProgressModel
  errorMessage : String

/-- What `receiver.go` imports and does not define. Package `constants`:
`PADDING`, `MAX_WIDTH`, `PRIMARY_COLOR`, `QuitKeys`, `PadText`,
`QuitCommandsHelpText`, `InfoStyle`, `BoldText`, `ItalicText`, `ProgressBar`.
Package `tools`: `ByteCountSI`. Package `tui`, other files: `WaitingSpinner`,
`TransferSpinner`, `TopLevelFilesText`. Libraries: `strings.ToLower`,
`wordwrap.String`, `indent.String`, `spinner.NewModel` (as the value it
returns), the spinner's `Update` and `View`, and the progress bar's
`SetPercent`, `Update` and `View` (methods that change their receiver return
the changed receiver next to their command). -/
structure Env where
  PADDING : Int
  MAX_WIDTH : Int
  PRIMARY_COLOR : String
  QuitKeys : List String
  PadText : String
  QuitCommandsHelpText : String
  InfoStyle : String → String
  BoldText : String → String
  ItalicText : String → String
  ProgressBar : ProgressModel
  ByteCountSI : Int → String
  WaitingSpinner : Spinner
  TransferSpinner : Spinner
  TopLevelFilesText : List String → String
  ToLower : String → String
  wordwrapString : String → Int → String
  indentString : String → Int → String
  spinnerNewModel : SpinnerModel
  spinnerUpdate : SpinnerModel → Msg → SpinnerModel × Cmd
  spinnerView : SpinnerModel → String
  progressSetPercent : ProgressModel → Float → ProgressModel × Cmd
  progressUpdate : ProgressModel → Msg → ProgressModel × Cmd
  progressView : ProgressModel → String

/-! ## Operations -/

/-- Modelled from the spec: `tools.Contains` is not among the sources; the
configured quit keys are "a configured set of quit key identifiers" that the
lower-cased key is matched against, so it is the membership test on the
slice. -/
def Contains (s : List String) (e : String) : Bool :=
  s.contains e

/-- Two's-complement wrap of an integer into the range of Go's 64-bit `int`. -/
def wrapInt (x : Int) : Int :=
  (x + 2 ^ 63) % 2 ^ 64 - 2 ^ 63

/-- The method `resetSpinner`: a fresh spinner with the primary colour, and
the symbol set of the current phase when that phase is `showEstablishing` or
`showReceivingProgress`. -/
def resetSpinner (env : Env) (m : receiverUIModel) : receiverUIModel :=
  let m1 := { m with spinner := env.spinnerNewModel }
  let m2 := { m1 with
    spinner := { m1.spinner with Style := { foreground := some env.PRIMARY_COLOR } } }
  let m3 :=
    if m2.state = showEstablishing then
      { m2 with spinner := { m2.spinner with Spinner := env.WaitingSpinner } }
    else m2
  if m3.state = showReceivingProgress then
    { m3 with spinner := { m3.spinner with Spinner := env.TransferSpinner } }
  else m3

/-- The zero value of `spinner.Model`. -/
def zeroSpinnerModel : SpinnerModel :=
  { Spinner := { Frames := [], FPS := 0 }, Style := {}, frame := 0, id := 0, tag := 0 }

/-- The model that `NewReceiverUI` hands to `tea.NewProgram`: the zero value
of the struct with `progressBar` set, after `resetSpinner`. -/
def NewReceiverUI (env : Env) : receiverUIModel :=
  resetSpinner env
    { state := 0
      receivedFiles := []
      payloadSize := 0
      decompressedPayloadSize := 0
      spinner := zeroSpinnerModel
      progressBar := env.ProgressBar
      errorMessage := "" }

/-- The method `Update`: the new model and the follow-up command. -/
def Update (env : Env) (m : receiverUIModel) (msg : Msg) : receiverUIModel × Cmd :=
  match msg with
  | Msg.FileInfoMsg bytes =>
    let m1 := { m with payloadSize := bytes }
    if m1.state ≠ showReceivingProgress then
      let m2 := { m1 with state := showReceivingProgress }
      (resetSpinner env m2, Cmd.spinnerTick)
    else
      (m1, Cmd.nil)
  | Msg.ProgressMsg progress =>
    let m1 := { m with state := showReceivingProgress }
    let r := env.progressSetPercent m1.progressBar progress
    ({ m1 with progressBar := r.1 }, r.2)
  | Msg.FinishedMsg files size =>
    let m1 := { m with
      state := showFinished, receivedFiles := files, decompressedPayloadSize := size }
    let r := env.progressSetPercent m1.progressBar 1.0
    ({ m1 with progressBar := r.1 }, r.2)
  | Msg.ErrorMsg message =>
    ({ m with state := showError, errorMessage := message }, Cmd.nil)
  | Msg.KeyMsg str =>
    if Contains env.QuitKeys (env.ToLower str) then (m, Cmd.quit) else (m, Cmd.nil)
  | Msg.WindowSizeMsg width _ =>
    let w1 := wrapInt (width - 2 * env.PADDING - 4)
    let w2 := if w1 > env.MAX_WIDTH then env.MAX_WIDTH else w1
    ({ m with progressBar := { m.progressBar with Width := w2 } }, Cmd.nil)
  | Msg.FrameMsg id tag =>
    let r := env.progressUpdate m.progressBar (Msg.FrameMsg id tag)
    ({ m with progressBar := r.1 }, r.2)
  | other =>
    let r := env.spinnerUpdate m.spinner other
    ({ m with spinner := r.1 }, r.2)

/-- The first line of `finishedText` in `View`:
`Sprintf("Received %d files (%s decompressed)", len(m.receivedFiles), payloadSize)`
with `payloadSize := constants.BoldText(tools.ByteCountSI(m.payloadSize))`. -/
def finishedSummary (env : Env) (m : receiverUIModel) : String :=
  let payloadSize := env.BoldText (env.ByteCountSI m.payloadSize)
  "Received " ++ toString m.receivedFiles.length ++ " files (" ++ payloadSize ++ " decompressed)"

/-- The local `indentedWrappedFiles` of `View`. -/
def indentedWrappedFiles (env : Env) (m : receiverUIModel) : String :=
  env.indentString
    ("Received: " ++
      env.wordwrapString (env.ItalicText (env.TopLevelFilesText m.receivedFiles)) env.MAX_WIDTH)
    env.PADDING

/-- The method `View`. -/
def View (env : Env) (m : receiverUIModel) : String :=
  if m.state = showEstablishing then
    "\n" ++ env.PadText ++
      env.InfoStyle (env.spinnerView m.spinner ++ " Establishing connection with sender") ++ "\n\n"
  else if m.state = showReceivingProgress then
    let payloadSize := env.BoldText (env.ByteCountSI m.payloadSize)
    let receivingText :=
      env.spinnerView m.spinner ++ " Receiving files (total size " ++ payloadSize ++ ")"
    "\n" ++ env.PadText ++ env.InfoStyle receivingText ++ "\n\n" ++
      env.PadText ++ env.progressView m.progressBar ++ "\n\n" ++
      env.PadText ++ env.QuitCommandsHelpText ++ "\n\n"
  else if m.state = showFinished then
    let finishedText := finishedSummary env m ++ "\n\n" ++ indentedWrappedFiles env m
    "\n" ++ env.PadText ++ env.InfoStyle finishedText ++ "\n\n" ++
      env.PadText ++ env.progressView m.progressBar ++ "\n\n" ++
      env.PadText ++ env.QuitCommandsHelpText ++ "\n\n"
  else if m.state = showError then
    m.errorMessage
  else
    ""

/-- The model after a finite sequence of messages, each handled by `Update`
in arrival order (follow-up commands dropped). -/
def runMsgs (env : Env) (m : receiverUIModel) (msgs : List Msg) : receiverUIModel :=
  msgs.foldl (fun s x => (Update env s x).1) m

/-! ## Vocabulary of the properties -/

/-- The message has dynamic type `FileInfoMsg`. -/
def Msg.isFileInfo : Msg → Bool
  | Msg.FileInfoMsg _ => true
  | _ => false

/-- The message has dynamic type `ProgressMsg`. -/
def Msg.isProgress : Msg → Bool
  | Msg.ProgressMsg _ => true
  | _ => false

/-- The message has dynamic type `FinishedMsg`. -/
def Msg.isFinished : Msg → Bool
  | Msg.FinishedMsg _ _ => true
  | _ => false

/-- The message has dynamic type `ErrorMsg`. -/
def Msg.isError : Msg → Bool
  | Msg.ErrorMsg _ => true
  | _ => false

/-- The message has dynamic type `tea.KeyMsg`. -/
def Msg.isKey : Msg → Bool
  | Msg.KeyMsg _ => true
  | _ => false

/-- The message has dynamic type `tea.WindowSizeMsg`. -/
def Msg.isWindowSize : Msg → Bool
  | Msg.WindowSizeMsg _ _ => true
  | _ => false

/-- The message has dynamic type `progress.FrameMsg`. -/
def Msg.isFrame : Msg → Bool
  | Msg.FrameMsg _ _ => true
  | _ => false

/-- The phase is one of the four constants of the `iota` block. -/
def isDefinedPhase (p : uiState) : Prop :=
  p = showEstablishing ∨ p = showReceivingProgress ∨ p = showFinished ∨ p = showError

instance (p : uiState) : Decidable (isDefinedPhase p) := by
  unfold isDefinedPhase
  infer_instance

/-- The phase `p2` is not behind `p1`: it is `showError`, or both lie on the
line `showEstablishing < showReceivingProgress < showFinished` with `p2` at or
after `p1`. -/
def notBackward (p1 p2 : uiState) : Prop :=
  p2 = showError ∨ (showEstablishing ≤ p1 ∧ p1 ≤ p2 ∧ p2 ≤ showFinished)

instance (p1 p2 : uiState) : Decidable (notBackward p1 p2) := by
  unfold notBackward
  infer_instance

/-- The phase that `Update` assigns, read off its case list: the four transfer
messages each write a fixed phase, every other message writes none. -/
def nextPhase (p : uiState) : Msg → uiState
  | Msg.FileInfoMsg _ => showReceivingProgress
  | Msg.ProgressMsg _ => showReceivingProgress
  | Msg.FinishedMsg _ _ => showFinished
  | Msg.ErrorMsg _ => showError
  | _ => p

/-- The error text on display after further messages: the text of the last
`ErrorMsg` among them, or `e` when there is none. -/
def lastErrorText (e : String) : List Msg → String
  | [] => e
  | Msg.ErrorMsg e2 :: rest => lastErrorText e2 rest
  | _ :: rest => lastErrorText e rest

/-- The value is in the range of Go's 64-bit `int`. -/
def inIntRange (x : Int) : Prop :=
  -(2 ^ 63) ≤ x ∧ x < 2 ^ 63

instance (x : Int) : Decidable (inIntRange x) := by
  unfold inIntRange
  infer_instance

/-! ## A concrete environment

An instantiation of `Env` on which the model can be evaluated: identity
styles, ASCII symbol sets, a byte counter that prints the number followed by
the unit, and sub-models that count their steps. It serves the worked examples
only; no general theorem depends on it. -/

/-- Lower-casing of the ASCII letters of a string. -/
def asciiLower (s : String) : String :=
  String.mk (s.data.map Char.toLower)

/-- The concrete environment of the worked examples. -/
def demoEnv : Env :=
  { PADDING := 2
    MAX_WIDTH := 80
    PRIMARY_COLOR := "#1E90FF"
    QuitKeys := ["ctrl+c", "q", "esc"]
    PadText := "  "
    QuitCommandsHelpText := "(any of [q, esc, ctrl+c] to abort)"
    InfoStyle := fun s => s
    BoldText := fun s => s
    ItalicText := fun s => s
    ProgressBar := { Width := 40, percentShown := 0.0, targetPercent := 0.0, id := 0, tag := 0 }
    ByteCountSI := fun b => toString b ++ " B"
    WaitingSpinner := { Frames := [".", "o", "O"], FPS := 4 }
    TransferSpinner := { Frames := ["<", "-", ">"], FPS := 8 }
    TopLevelFilesText := fun fs => ", ".intercalate fs
    ToLower := asciiLower
    wordwrapString := fun s _ => s
    indentString := fun s _ => s
    spinnerNewModel :=
      { Spinner := { Frames := ["|", "/", "-"], FPS := 10 }, Style := {}, frame := 0, id := 1,
        tag := 0 }
    spinnerUpdate := fun sp _ => ({ sp with frame := sp.frame + 1 }, Cmd.sub 0)
    spinnerView := fun sp => sp.Spinner.Frames.headD ""
    progressSetPercent := fun pb f => ({ pb with targetPercent := f, tag := pb.tag + 1 }, Cmd.sub 1)
    progressUpdate := fun pb _ => ({ pb with percentShown := pb.targetPercent }, Cmd.nil)
    progressView := fun pb => "[" ++ toString pb.Width ++ "]" }

/-- The concrete environment with a single quit key configured, written in
upper case. -/
def upperQuitKeyEnv : Env :=
  { demoEnv with QuitKeys := ["Q"] }

/-! ## Lemmas on `Update` and `resetSpinner` -/

theorem resetSpinner_state (env : Env) (m : receiverUIModel) :
    (resetSpinner env m).state = m.state := by
  unfold resetSpinner
  dsimp only
  split_ifs <;> rfl

theorem resetSpinner_payloadSize (env : Env) (m : receiverUIModel) :
    (resetSpinner env m).payloadSize = m.payloadSize := by
  unfold resetSpinner
  dsimp only
  split_ifs <;> rfl

theorem resetSpinner_errorMessage (env : Env) (m : receiverUIModel) :
    (resetSpinner env m).errorMessage = m.errorMessage := by
  unfold resetSpinner
  dsimp only
  split_ifs <;> rfl

theorem Update_state (env : Env) (m : receiverUIModel) (msg : Msg) :
    (Update env m msg).1.state = nextPhase m.state msg := by
  cases msg <;> simp only [Update, nextPhase]
  case FileInfoMsg b =>
    split_ifs with h
    · exact resetSpinner_state env _
    · simpa using h
  case KeyMsg s =>
    split_ifs <;> rfl

theorem Update_errorMessage (env : Env) (m : receiverUIModel) (msg : Msg)
    (h : msg.isError = false) :
    (Update env m msg).1.errorMessage = m.errorMessage := by
  cases msg <;> simp only [Update] <;> try rfl
  case FileInfoMsg b =>
    split_ifs
    · exact resetSpinner_errorMessage env _
    · rfl
  case ErrorMsg e => simp [Msg.isError] at h
  case KeyMsg s =>
    split_ifs <;> rfl

theorem View_of_showError (env : Env) (m : receiverUIModel) (h : m.state = showError) :
    View env m = m.errorMessage := by
  unfold View
  rw [h]
  simp

theorem lastErrorText_cons_of_not_error (e : String) (x : Msg) (rest : List Msg)
    (h : x.isError = false) : lastErrorText e (x :: rest) = lastErrorText e rest := by
  cases x <;> first | rfl | (simp [Msg.isError] at h)

/-- In phase `showError`, a run of messages with no `FileInfoMsg`,
`ProgressMsg` or `FinishedMsg` stays in `showError` and displays the text of
the last `ErrorMsg`. -/
theorem runMsgs_showError (env : Env) (msgs : List Msg) :
    ∀ m : receiverUIModel, m.state = showError →
      (∀ x ∈ msgs, x.isFileInfo = false ∧ x.isProgress = false ∧ x.isFinished = false) →
      (runMsgs env m msgs).state = showError ∧
        (runMsgs env m msgs).errorMessage = lastErrorText m.errorMessage msgs := by
  induction msgs with
  | nil =>
    intro m hm _
    exact ⟨hm, rfl⟩
  | cons x rest ih =>
    intro m hm hx
    have hhead := hx x (List.mem_cons_self x rest)
    have hrest : ∀ y ∈ rest, y.isFileInfo = false ∧ y.isProgress = false ∧ y.isFinished = false :=
      fun y hy => hx y (List.mem_cons_of_mem x hy)
    have hst : (Update env m x).1.state = showError := by
      rw [Update_state]
      clear hx hrest ih
      cases x <;>
        first
          | exact hm
          | rfl
          | (simp [Msg.isFileInfo, Msg.isProgress, Msg.isFinished] at hhead)
    have hrun : runMsgs env m (x :: rest) = runMsgs env (Update env m x).1 rest := rfl
    rw [hrun]
    refine ⟨(ih _ hst hrest).1, ?_⟩
    rw [(ih _ hst hrest).2]
    cases hxe : x.isError
    · rw [Update_errorMessage env m x hxe, lastErrorText_cons_of_not_error _ _ _ hxe]
    · cases x <;> first | rfl | (simp [Msg.isError] at hxe)

/-! ## Phase order (C1) -/

/-- C1, the code at the failing input: from the initial model, `FinishedMsg`
puts the phase at `showFinished` and a following `ProgressMsg` takes it back
to `showReceivingProgress`, which is behind `showFinished`: the phase moves up
the list of constants that the source comments with "ui state flows from the
top down". -/
theorem phase_backward_after_finished :
    (Update demoEnv (NewReceiverUI demoEnv) (Msg.FinishedMsg ["a.txt"] 10)).1.state
        = showFinished ∧
      (Update demoEnv (Update demoEnv (NewReceiverUI demoEnv) (Msg.FinishedMsg ["a.txt"] 10)).1
        (Msg.ProgressMsg 0.5)).1.state = showReceivingProgress ∧
      ¬ notBackward
        (Update demoEnv (NewReceiverUI demoEnv) (Msg.FinishedMsg ["a.txt"] 10)).1.state
        (Update demoEnv (Update demoEnv (NewReceiverUI demoEnv) (Msg.FinishedMsg ["a.txt"] 10)).1
          (Msg.ProgressMsg 0.5)).1.state := by
  refine ⟨rfl, rfl, ?_⟩
  simp only [Update_state, nextPhase]
  decide

/-- The inputs on which `Update` keeps the phase order: the phase does not
move backward when the phase before is `showEstablishing` or
`showReceivingProgress`, when it is `showFinished` and the message is no
`FileInfoMsg` or `ProgressMsg`, or when it is `showError` and the message is
no `FileInfoMsg`, `ProgressMsg` or `FinishedMsg`. On the remaining inputs the
phase written is the one that `nextPhase` reads off the case list. -/
theorem Update_phase_not_backward (env : Env) (m : receiverUIModel) (msg : Msg) :
    (Update env m msg).1.state = nextPhase m.state msg ∧
      (m.state = showEstablishing ∨ m.state = showReceivingProgress ∨
          (m.state = showFinished ∧ msg.isFileInfo = false ∧ msg.isProgress = false) ∨
          (m.state = showError ∧ msg.isFileInfo = false ∧ msg.isProgress = false ∧
            msg.isFinished = false) →
        notBackward m.state (Update env m msg).1.state) := by
  refine ⟨Update_state env m msg, ?_⟩
  intro hp
  rw [Update_state]
  rcases hp with h | h | ⟨h, h1, h2⟩ | ⟨h, h1, h2, h3⟩ <;> rw [h] <;>
    cases msg <;>
    simp_all [nextPhase, notBackward, Msg.isFileInfo, Msg.isProgress, Msg.isFinished]

/-- An instance of `Update_phase_not_backward`: in phase `showFinished`
(reached from the initial model by a `FinishedMsg`), an `ErrorMsg` does not
move the phase backward. -/
theorem Update_phase_not_backward_witness :
    (Update demoEnv (NewReceiverUI demoEnv) (Msg.FinishedMsg ["a.txt"] 10)).1.state
        = showFinished ∧
      notBackward
        (Update demoEnv (NewReceiverUI demoEnv) (Msg.FinishedMsg ["a.txt"] 10)).1.state
        (Update demoEnv (Update demoEnv (NewReceiverUI demoEnv) (Msg.FinishedMsg ["a.txt"] 10)).1
          (Msg.ErrorMsg "boom")).1.state :=
  ⟨rfl,
    (Update_phase_not_backward demoEnv
      (Update demoEnv (NewReceiverUI demoEnv) (Msg.FinishedMsg ["a.txt"] 10)).1
      (Msg.ErrorMsg "boom")).2 (Or.inr (Or.inr (Or.inl ⟨rfl, rfl, rfl⟩)))⟩

/-! ## The error phase (C2, C3) -/

/-- C2, counterexample: after `ErrorMsg "boom"` on the initial model, a
`ProgressMsg` leaves phase `showError`; and a second `ErrorMsg` with another
text makes `View` return that text instead of `"boom"`. -/
theorem error_phase_left_by_progress :
    (runMsgs demoEnv (Update demoEnv (NewReceiverUI demoEnv) (Msg.ErrorMsg "boom")).1
        [Msg.ProgressMsg 0.5]).state ≠ showError ∧
      View demoEnv (runMsgs demoEnv (Update demoEnv (NewReceiverUI demoEnv) (Msg.ErrorMsg "boom")).1
        [Msg.ErrorMsg "bang"]) ≠ "boom" := by
  constructor
  · show (Update demoEnv _ (Msg.ProgressMsg 0.5)).1.state ≠ showError
    rw [Update_state]
    decide
  · rw [View_of_showError _ _ (by rfl)]
    show "bang" ≠ "boom"
    decide

/-- C2, amended: after `Update` with `ErrorMsg e`, every finite sequence of
further messages that contains no `FileInfoMsg`, `ProgressMsg` or
`FinishedMsg` leaves the phase at `showError`, and `View` returns the text of
the last `ErrorMsg` of the sequence; when the sequence contains no `ErrorMsg`
either, `View` returns exactly `e`. -/
theorem error_absorbing_without_transfer_msgs (env : Env) (m : receiverUIModel) (e : String)
    (msgs : List Msg)
    (h : ∀ x ∈ msgs, x.isFileInfo = false ∧ x.isProgress = false ∧ x.isFinished = false) :
    (runMsgs env (Update env m (Msg.ErrorMsg e)).1 msgs).state = showError ∧
      View env (runMsgs env (Update env m (Msg.ErrorMsg e)).1 msgs) = lastErrorText e msgs ∧
      ((∀ x ∈ msgs, x.isError = false) →
        View env (runMsgs env (Update env m (Msg.ErrorMsg e)).1 msgs) = e) := by
  have hrun := runMsgs_showError env msgs (Update env m (Msg.ErrorMsg e)).1 rfl h
  have hview : View env (runMsgs env (Update env m (Msg.ErrorMsg e)).1 msgs)
      = lastErrorText e msgs := by
    rw [View_of_showError _ _ hrun.1, hrun.2]
    rfl
  refine ⟨hrun.1, hview, ?_⟩
  intro hne
  rw [hview]
  clear hrun hview h
  induction msgs with
  | nil => rfl
  | cons x rest ih =>
    have hx := hne x (List.mem_cons_self x rest)
    have hr : ∀ y ∈ rest, y.isError = false := fun y hy => hne y (List.mem_cons_of_mem x hy)
    rw [lastErrorText_cons_of_not_error _ _ _ hx]
    exact ih hr

/-- C2, witness: after `ErrorMsg "boom"` on the initial model, an unmatched
key press, a window resize and a spinner tick leave `"boom"` on display. -/
theorem error_absorbing_without_transfer_msgs_witness :
    (runMsgs demoEnv (Update demoEnv (NewReceiverUI demoEnv) (Msg.ErrorMsg "boom")).1
        [Msg.KeyMsg "x", Msg.WindowSizeMsg 100 30, Msg.spinnerTickMsg 1 0]).state = showError ∧
      View demoEnv (runMsgs demoEnv (Update demoEnv (NewReceiverUI demoEnv) (Msg.ErrorMsg "boom")).1
        [Msg.KeyMsg "x", Msg.WindowSizeMsg 100 30, Msg.spinnerTickMsg 1 0]) = "boom" :=
  have h := error_absorbing_without_transfer_msgs demoEnv (NewReceiverUI demoEnv) "boom"
    [Msg.KeyMsg "x", Msg.WindowSizeMsg 100 30, Msg.spinnerTickMsg 1 0]
    (by
      intro x hx
      simp only [List.mem_cons, List.mem_singleton, List.not_mem_nil, or_false] at hx
      rcases hx with h | h | h <;> subst h <;> exact ⟨rfl, rfl, rfl⟩)
  ⟨h.1, h.2.2 (by
      intro x hx
      simp only [List.mem_cons, List.mem_singleton, List.not_mem_nil, or_false] at hx
      rcases hx with h | h | h <;> subst h <;> rfl)⟩

/-- C3: for every model and every text `e`, `View` of the model returned by
`Update` with `ErrorMsg e` is exactly `e`; in particular `"boom"` is rendered
as `"boom"` from the initial model. -/
theorem View_after_ErrorMsg (env : Env) (m : receiverUIModel) (e : String) :
    View env (Update env m (Msg.ErrorMsg e)).1 = e ∧
      View demoEnv (Update demoEnv (NewReceiverUI demoEnv) (Msg.ErrorMsg "boom")).1 = "boom" :=
  ⟨View_of_showError env _ rfl, View_of_showError demoEnv _ rfl⟩

/-! ## The finished frame (C4, C5) -/

theorem Update_FinishedMsg_fields (env : Env) (m : receiverUIModel) (fs : List String) (n : Int) :
    (Update env m (Msg.FinishedMsg fs n)).1.state = showFinished ∧
      (Update env m (Msg.FinishedMsg fs n)).1.receivedFiles = fs ∧
      (Update env m (Msg.FinishedMsg fs n)).1.payloadSize = m.payloadSize ∧
      (Update env m (Msg.FinishedMsg fs n)).1.decompressedPayloadSize = n :=
  ⟨rfl, rfl, rfl, rfl⟩

theorem View_of_showFinished (env : Env) (m : receiverUIModel) (h : m.state = showFinished) :
    View env m =
      "\n" ++ env.PadText ++
        env.InfoStyle (finishedSummary env m ++ "\n\n" ++ indentedWrappedFiles env m) ++ "\n\n" ++
        env.PadText ++ env.progressView m.progressBar ++ "\n\n" ++
        env.PadText ++ env.QuitCommandsHelpText ++ "\n\n" := by
  unfold View
  rw [h]
  simp

/-- C4, the code at the failing input: the size in the summary line of the
finished frame is `ByteCountSI` of `payloadSize`, the byte count of the last
`FileInfoMsg`, which `FinishedMsg` does not touch; the size `n` carried by
`FinishedMsg` is stored in `decompressedPayloadSize`, and no frame depends on
that field. From the initial model, `FinishedMsg` with two files and size
2048 yields the summary for 0 bytes. -/
theorem finished_summary_size_is_payloadSize (env : Env) (m : receiverUIModel)
    (fs : List String) (n : Int) :
    (Update env m (Msg.FinishedMsg fs n)).1.decompressedPayloadSize = n ∧
      finishedSummary env (Update env m (Msg.FinishedMsg fs n)).1 =
        "Received " ++ toString fs.length ++ " files (" ++
          env.BoldText (env.ByteCountSI m.payloadSize) ++ " decompressed)" ∧
      (∀ k : Int, View env { (Update env m (Msg.FinishedMsg fs n)).1 with
          decompressedPayloadSize := k } = View env (Update env m (Msg.FinishedMsg fs n)).1) ∧
      finishedSummary env
          (Update env (NewReceiverUI env) (Msg.FinishedMsg ["a.txt", "dir/b.txt"] 2048)).1 =
        "Received 2 files (" ++ env.BoldText (env.ByteCountSI 0) ++ " decompressed)" ∧
      finishedSummary demoEnv
          (Update demoEnv (NewReceiverUI demoEnv) (Msg.FinishedMsg ["a.txt", "dir/b.txt"] 2048)).1 =
        "Received 2 files (0 B decompressed)" := by
  refine ⟨rfl, rfl, fun k => rfl, ?_, ?_⟩
  · have h : (NewReceiverUI env).payloadSize = 0 := resetSpinner_payloadSize env _
    simp only [finishedSummary, Update_FinishedMsg_fields, h]
    rfl
  · decide

/-- C5: for every model, file list `fs` and size `n`, the frame rendered
after `FinishedMsg fs n` is the finished frame whose summary line reads
"Received N files (... decompressed)" with `N` the decimal length of `fs`;
for the two paths `a.txt` and `dir/b.txt` it reads "Received 2 files". -/
theorem finished_summary_counts_files (env : Env) (m : receiverUIModel)
    (fs : List String) (n : Int) :
    View env (Update env m (Msg.FinishedMsg fs n)).1 =
        "\n" ++ env.PadText ++
          env.InfoStyle
            (("Received " ++ toString fs.length ++ " files (" ++
                env.BoldText (env.ByteCountSI (Update env m (Msg.FinishedMsg fs n)).1.payloadSize)
                ++ " decompressed)") ++ "\n\n" ++
              indentedWrappedFiles env (Update env m (Msg.FinishedMsg fs n)).1) ++ "\n\n" ++
          env.PadText ++ env.progressView (Update env m (Msg.FinishedMsg fs n)).1.progressBar ++
          "\n\n" ++ env.PadText ++ env.QuitCommandsHelpText ++ "\n\n" ∧
      finishedSummary env (Update env m (Msg.FinishedMsg ["a.txt", "dir/b.txt"] n)).1 =
        "Received 2 files (" ++ env.BoldText (env.ByteCountSI m.payloadSize) ++ " decompressed)" := by
  constructor
  · rw [View_of_showFinished env _ rfl]
    rfl
  · simp only [finishedSummary, Update_FinishedMsg_fields]
    rfl

/-! ## Window resize (C6) -/

theorem wrapInt_of_inIntRange (x : Int) (h : inIntRange x) : wrapInt x = x := by
  unfold inIntRange at h
  unfold wrapInt
  norm_num at h ⊢
  omega

theorem Update_WindowSizeMsg_Width (env : Env) (m : receiverUIModel) (w h : Int) :
    (Update env m (Msg.WindowSizeMsg w h)).1.progressBar.Width =
      if wrapInt (w - 2 * env.PADDING - 4) > env.MAX_WIDTH then env.MAX_WIDTH
      else wrapInt (w - 2 * env.PADDING - 4) :=
  rfl

/-- C6, counterexample: a terminal of width 0 gives the progress bar of the
initial model the width -8, below 0. -/
theorem width_negative_for_zero_window :
    (Update demoEnv (NewReceiverUI demoEnv) (Msg.WindowSizeMsg 0 24)).1.progressBar.Width = -8 ∧
      ¬ (0 ≤ (Update demoEnv (NewReceiverUI demoEnv) (Msg.WindowSizeMsg 0 24)).1.progressBar.Width ∧
        (Update demoEnv (NewReceiverUI demoEnv) (Msg.WindowSizeMsg 0 24)).1.progressBar.Width
          ≤ demoEnv.MAX_WIDTH) := by
  have h : (Update demoEnv (NewReceiverUI demoEnv) (Msg.WindowSizeMsg 0 24)).1.progressBar.Width
      = -8 := by
    rw [Update_WindowSizeMsg_Width]
    decide
  rw [h]
  decide

/-- C6, amended: after `WindowSizeMsg` with width `w` the progress bar width
is at most `MAX_WIDTH` for every `w`; it is at least 0 when
`w ≥ 2 * PADDING + 4` (with `PADDING` and `MAX_WIDTH` non-negative), and it is
negative when `w < 2 * PADDING + 4`, there being no floor at 0 (`w` and
`w - 2 * PADDING - 4` within the range of `int`). -/
theorem WindowSizeMsg_Width_bounds (env : Env) (m : receiverUIModel) (w h : Int) :
    (Update env m (Msg.WindowSizeMsg w h)).1.progressBar.Width ≤ env.MAX_WIDTH ∧
      (0 ≤ env.MAX_WIDTH → 0 ≤ env.PADDING → 2 * env.PADDING + 4 ≤ w → inIntRange w →
        0 ≤ (Update env m (Msg.WindowSizeMsg w h)).1.progressBar.Width) ∧
      (inIntRange (w - 2 * env.PADDING - 4) → w < 2 * env.PADDING + 4 →
        (Update env m (Msg.WindowSizeMsg w h)).1.progressBar.Width < 0) := by
  rw [Update_WindowSizeMsg_Width]
  refine ⟨?_, ?_, ?_⟩
  · split_ifs with hgt
    · exact le_refl _
    · exact not_lt.mp hgt
  · intro hmax hpad hw hr
    have hin : inIntRange (w - 2 * env.PADDING - 4) := by
      unfold inIntRange at hr ⊢
      norm_num at hr ⊢
      omega
    rw [wrapInt_of_inIntRange _ hin]
    split_ifs
    · exact hmax
    · omega
  · intro hin hw
    rw [wrapInt_of_inIntRange _ hin]
    split_ifs with hgt
    · omega
    · omega

/-- C6, witness: with `PADDING = 2` and `MAX_WIDTH = 80`, width 100 gives a
bar width between 0 and 80, and width 5 gives a negative bar width. -/
theorem WindowSizeMsg_Width_bounds_witness :
    0 ≤ (Update demoEnv (NewReceiverUI demoEnv) (Msg.WindowSizeMsg 100 30)).1.progressBar.Width ∧
      (Update demoEnv (NewReceiverUI demoEnv) (Msg.WindowSizeMsg 5 30)).1.progressBar.Width < 0 :=
  ⟨(WindowSizeMsg_Width_bounds demoEnv (NewReceiverUI demoEnv) 100 30).2.1
      (by decide) (by decide) (by decide) (by decide),
    (WindowSizeMsg_Width_bounds demoEnv (NewReceiverUI demoEnv) 5 30).2.2
      (by decide) (by decide)⟩

/-! ## Entering the receiving phase (C7, C8) -/

theorem resetSpinner_Spinner_of_receiving (env : Env) (m : receiverUIModel)
    (h : m.state = showReceivingProgress) :
    (resetSpinner env m).spinner.Spinner = env.TransferSpinner := by
  unfold resetSpinner
  simp [h]

theorem NewReceiverUI_spinner (env : Env) :
    (NewReceiverUI env).state = showEstablishing ∧
      (NewReceiverUI env).spinner.Spinner = env.WaitingSpinner := by
  unfold NewReceiverUI resetSpinner
  simp

/-- C7, the code at the failing input: on the initial model (phase
`showEstablishing`, waiting symbol set) a `ProgressMsg` moves the phase to
`showReceivingProgress` and leaves the spinner as it was, so the symbol set is
still `WaitingSpinner`; `ProgressMsg` never touches the spinner, whereas
`FileInfoMsg` on the same model installs `TransferSpinner`. -/
theorem ProgressMsg_keeps_spinner (env : Env) (f : Float) (b : Int) :
    (NewReceiverUI env).state = showEstablishing ∧
      (Update env (NewReceiverUI env) (Msg.ProgressMsg f)).1.state = showReceivingProgress ∧
      (Update env (NewReceiverUI env) (Msg.ProgressMsg f)).1.spinner.Spinner
        = env.WaitingSpinner ∧
      (∀ m : receiverUIModel, (Update env m (Msg.ProgressMsg f)).1.spinner = m.spinner) ∧
      (Update env (NewReceiverUI env) (Msg.FileInfoMsg b)).1.spinner.Spinner
        = env.TransferSpinner ∧
      (Update demoEnv (NewReceiverUI demoEnv) (Msg.ProgressMsg f)).1.spinner.Spinner
        ≠ demoEnv.TransferSpinner := by
  refine ⟨(NewReceiverUI_spinner env).1, rfl, (NewReceiverUI_spinner env).2, fun _ => rfl, ?_, ?_⟩
  · have h0 : (NewReceiverUI env).state ≠ showReceivingProgress := by
      rw [(NewReceiverUI_spinner env).1]
      decide
    simp only [Update, h0, ne_eq, not_false_eq_true, if_true]
    exact resetSpinner_Spinner_of_receiving env _ rfl
  · show (NewReceiverUI demoEnv).spinner.Spinner ≠ demoEnv.TransferSpinner
    rw [(NewReceiverUI_spinner demoEnv).2]
    decide

/-- C8: `Update` with `FileInfoMsg b` returns a model with `payloadSize = b`
and phase `showReceivingProgress`. When the phase before was another one the
command is `spinner.Tick`; when it was `showReceivingProgress` the command is
nil and the spinner is unchanged. `receivedFiles`, `decompressedPayloadSize`,
`errorMessage` and `progressBar` are unchanged in both cases. -/
theorem Update_FileInfoMsg (env : Env) (m : receiverUIModel) (b : Int) :
    (Update env m (Msg.FileInfoMsg b)).1.payloadSize = b ∧
      (Update env m (Msg.FileInfoMsg b)).1.state = showReceivingProgress ∧
      (m.state ≠ showReceivingProgress →
        (Update env m (Msg.FileInfoMsg b)).2 = Cmd.spinnerTick) ∧
      (m.state = showReceivingProgress →
        (Update env m (Msg.FileInfoMsg b)).2 = Cmd.nil ∧
          (Update env m (Msg.FileInfoMsg b)).1.spinner = m.spinner) ∧
      (Update env m (Msg.FileInfoMsg b)).1.receivedFiles = m.receivedFiles ∧
      (Update env m (Msg.FileInfoMsg b)).1.decompressedPayloadSize = m.decompressedPayloadSize ∧
      (Update env m (Msg.FileInfoMsg b)).1.errorMessage = m.errorMessage ∧
      (Update env m (Msg.FileInfoMsg b)).1.progressBar = m.progressBar := by
  by_cases h : m.state = showReceivingProgress
  · simp [Update, h]
  · simp only [Update, ne_eq, h, not_false_eq_true, if_true, false_implies, true_implies,
      true_and]
    unfold resetSpinner
    simp

/-- C8, witness: on the initial model (phase `showEstablishing`) the command
is `spinner.Tick`; on the model that results (phase `showReceivingProgress`)
a second `FileInfoMsg` returns nil and keeps the spinner. -/
theorem Update_FileInfoMsg_witness :
    (Update demoEnv (NewReceiverUI demoEnv) (Msg.FileInfoMsg 2048)).2 = Cmd.spinnerTick ∧
      (Update demoEnv (Update demoEnv (NewReceiverUI demoEnv) (Msg.FileInfoMsg 2048)).1
          (Msg.FileInfoMsg 4096)).2 = Cmd.nil ∧
      (Update demoEnv (Update demoEnv (NewReceiverUI demoEnv) (Msg.FileInfoMsg 2048)).1
          (Msg.FileInfoMsg 4096)).1.spinner =
        (Update demoEnv (NewReceiverUI demoEnv) (Msg.FileInfoMsg 2048)).1.spinner :=
  ⟨(Update_FileInfoMsg demoEnv (NewReceiverUI demoEnv) 2048).2.2.1 (by decide),
    (Update_FileInfoMsg demoEnv
      (Update demoEnv (NewReceiverUI demoEnv) (Msg.FileInfoMsg 2048)).1 4096).2.2.2.1
      (Update_FileInfoMsg demoEnv (NewReceiverUI demoEnv) 2048).2.1⟩

/-! ## Quit keys (C9) -/

theorem Update_KeyMsg_of_not_Contains (env : Env) (m : receiverUIModel) (s : String)
    (h : Contains env.QuitKeys (env.ToLower s) = false) :
    Update env m (Msg.KeyMsg s) = (m, Cmd.nil) := by
  simp [Update, h]

/-- C9, counterexample: with the single quit key `Q` configured, the key
press `Q` (the configured key itself) and the key press `q` (its lower-case
variant) both return the nil command and not `tea.Quit`: the pressed key is
lower-cased before the lookup, the configured keys are not. -/
theorem upper_case_quit_key_not_matched :
    "Q" ∈ upperQuitKeyEnv.QuitKeys ∧
      Update upperQuitKeyEnv (NewReceiverUI upperQuitKeyEnv) (Msg.KeyMsg "Q")
        = (NewReceiverUI upperQuitKeyEnv, Cmd.nil) ∧
      Update upperQuitKeyEnv (NewReceiverUI upperQuitKeyEnv) (Msg.KeyMsg "q")
        = (NewReceiverUI upperQuitKeyEnv, Cmd.nil) ∧
      (Update upperQuitKeyEnv (NewReceiverUI upperQuitKeyEnv) (Msg.KeyMsg "Q")).2 ≠ Cmd.quit := by
  have hQ := Update_KeyMsg_of_not_Contains upperQuitKeyEnv (NewReceiverUI upperQuitKeyEnv) "Q"
    (by decide)
  have hq := Update_KeyMsg_of_not_Contains upperQuitKeyEnv (NewReceiverUI upperQuitKeyEnv) "q"
    (by decide)
  refine ⟨by decide, hQ, hq, ?_⟩
  rw [hQ]
  decide

/-- C9, amended: for every model and every key message whose string `s` is a
case variant of a configured quit key `k` that is written in lower case (`s`
and `k` have the same lower-cased form, and `k` is its own lower-cased form),
`Update` returns `tea.Quit` and the model unchanged. -/
theorem Update_KeyMsg_quit (env : Env) (m : receiverUIModel) (k s : String)
    (hk : k ∈ env.QuitKeys) (hlow : env.ToLower k = k) (hs : env.ToLower s = env.ToLower k) :
    Update env m (Msg.KeyMsg s) = (m, Cmd.quit) := by
  have hc : Contains env.QuitKeys (env.ToLower s) = true := by
    rw [hs, hlow]
    unfold Contains
    simpa using hk
  simp [Update, hc]

/-- C9, witness: with the quit keys `ctrl+c`, `q`, `esc`, the key `Q` quits
from the initial model. -/
theorem Update_KeyMsg_quit_witness :
    Update demoEnv (NewReceiverUI demoEnv) (Msg.KeyMsg "Q") = (NewReceiverUI demoEnv, Cmd.quit) :=
  Update_KeyMsg_quit demoEnv (NewReceiverUI demoEnv) "q" "Q" (by decide) (by decide) (by decide)

/-! ## Payload size (C10) -/

theorem Update_payloadSize_of_not_FileInfo (env : Env) (m : receiverUIModel) (msg : Msg)
    (h : msg.isFileInfo = false) : (Update env m msg).1.payloadSize = m.payloadSize := by
  cases msg <;> simp only [Update] <;> try rfl
  case FileInfoMsg b => simp [Msg.isFileInfo] at h
  case KeyMsg s =>
    split_ifs <;> rfl

theorem Update_FileInfoMsg_payloadSize (env : Env) (m : receiverUIModel) (b : Int) :
    (Update env m (Msg.FileInfoMsg b)).1.payloadSize = b := by
  simp only [Update]
  split_ifs
  · exact resetSpinner_payloadSize env _
  · rfl

theorem runMsgs_payloadSize_nonneg (env : Env) (msgs : List Msg) :
    ∀ m : receiverUIModel, 0 ≤ m.payloadSize →
      (∀ b : Int, Msg.FileInfoMsg b ∈ msgs → 0 ≤ b) →
      0 ≤ (runMsgs env m msgs).payloadSize := by
  induction msgs with
  | nil =>
    intro m hm _
    exact hm
  | cons x rest ih =>
    intro m hm hx
    have hrun : runMsgs env m (x :: rest) = runMsgs env (Update env m x).1 rest := rfl
    rw [hrun]
    apply ih
    · cases hxf : x.isFileInfo
      · rw [Update_payloadSize_of_not_FileInfo env m x hxf]
        exact hm
      · cases x with
        | FileInfoMsg b =>
          rw [Update_FileInfoMsg_payloadSize env m b]
          exact hx b (List.mem_cons_self _ rest)
        | _ => simp [Msg.isFileInfo] at hxf
    · intro b hb
      exact hx b (List.mem_cons_of_mem x hb)

/-- C10, counterexample: `FileInfoMsg` with `Bytes = -1`, a value of `int64`,
leaves the initial model with `payloadSize = -1`. -/
theorem payloadSize_negative_after_FileInfoMsg :
    (runMsgs demoEnv (NewReceiverUI demoEnv) [Msg.FileInfoMsg (-1)]).payloadSize = -1 ∧
      ¬ 0 ≤ (runMsgs demoEnv (NewReceiverUI demoEnv) [Msg.FileInfoMsg (-1)]).payloadSize := by
  have h : (runMsgs demoEnv (NewReceiverUI demoEnv) [Msg.FileInfoMsg (-1)]).payloadSize = -1 :=
    Update_FileInfoMsg_payloadSize demoEnv (NewReceiverUI demoEnv) (-1)
  rw [h]
  decide

/-- C10, amended: in every state reached from the initial model by a finite
sequence of messages whose `FileInfoMsg` all carry `Bytes ≥ 0`,
`payloadSize ≥ 0`. -/
theorem payloadSize_nonneg_of_nonneg_FileInfo (env : Env) (msgs : List Msg)
    (h : ∀ b : Int, Msg.FileInfoMsg b ∈ msgs → 0 ≤ b) :
    0 ≤ (runMsgs env (NewReceiverUI env) msgs).payloadSize := by
  apply runMsgs_payloadSize_nonneg env msgs _ _ h
  rw [show (NewReceiverUI env).payloadSize = 0 from resetSpinner_payloadSize env _]

/-- C10, witness: two announcements of 2048 and 0 bytes around a progress
report leave a non-negative `payloadSize`. -/
theorem payloadSize_nonneg_of_nonneg_FileInfo_witness :
    0 ≤ (runMsgs demoEnv (NewReceiverUI demoEnv)
      [Msg.FileInfoMsg 2048, Msg.ProgressMsg 0.5, Msg.FileInfoMsg 0]).payloadSize :=
  payloadSize_nonneg_of_nonneg_FileInfo demoEnv
    [Msg.FileInfoMsg 2048, Msg.ProgressMsg 0.5, Msg.FileInfoMsg 0]
    (by
      intro b hb
      simp only [List.mem_cons, List.mem_singleton, List.not_mem_nil, or_false] at hb
      rcases hb with hb | hb | hb
      · cases hb
        decide
      · cases hb
      · cases hb
        decide)

/-! ## Frame properties of `Update` (C11) -/

theorem resetSpinner_receivedFiles (env : Env) (m : receiverUIModel) :
    (resetSpinner env m).receivedFiles = m.receivedFiles := by
  unfold resetSpinner
  dsimp only
  split_ifs <;> rfl

theorem resetSpinner_decompressedPayloadSize (env : Env) (m : receiverUIModel) :
    (resetSpinner env m).decompressedPayloadSize = m.decompressedPayloadSize := by
  unfold resetSpinner
  dsimp only
  split_ifs <;> rfl

theorem resetSpinner_progressBar (env : Env) (m : receiverUIModel) :
    (resetSpinner env m).progressBar = m.progressBar := by
  unfold resetSpinner
  dsimp only
  split_ifs <;> rfl

theorem Update_receivedFiles_of_not_Finished (env : Env) (m : receiverUIModel) (msg : Msg)
    (h : msg.isFinished = false) : (Update env m msg).1.receivedFiles = m.receivedFiles := by
  cases msg <;> simp only [Update] <;> try rfl
  case FileInfoMsg b =>
    split_ifs
    · exact resetSpinner_receivedFiles env _
    · rfl
  case FinishedMsg fs n => simp [Msg.isFinished] at h
  case KeyMsg s =>
    split_ifs <;> rfl

theorem Update_decompressedPayloadSize_of_not_Finished (env : Env) (m : receiverUIModel)
    (msg : Msg) (h : msg.isFinished = false) :
    (Update env m msg).1.decompressedPayloadSize = m.decompressedPayloadSize := by
  cases msg <;> simp only [Update] <;> try rfl
  case FileInfoMsg b =>
    split_ifs
    · exact resetSpinner_decompressedPayloadSize env _
    · rfl
  case FinishedMsg fs n => simp [Msg.isFinished] at h
  case KeyMsg s =>
    split_ifs <;> rfl

/-- C11: `Update` leaves `receivedFiles` and `decompressedPayloadSize` as they
were for every message that is not a `FinishedMsg`, leaves `errorMessage` as
it was for every message that is not an `ErrorMsg`, and leaves `payloadSize`
as it was for every message that is not a `FileInfoMsg`. -/
theorem Update_frame (env : Env) (m : receiverUIModel) (msg : Msg) :
    (msg.isFinished = false →
        (Update env m msg).1.receivedFiles = m.receivedFiles ∧
          (Update env m msg).1.decompressedPayloadSize = m.decompressedPayloadSize) ∧
      (msg.isError = false → (Update env m msg).1.errorMessage = m.errorMessage) ∧
      (msg.isFileInfo = false → (Update env m msg).1.payloadSize = m.payloadSize) :=
  ⟨fun h => ⟨Update_receivedFiles_of_not_Finished env m msg h,
      Update_decompressedPayloadSize_of_not_Finished env m msg h⟩,
    Update_errorMessage env m msg,
    Update_payloadSize_of_not_FileInfo env m msg⟩

/-- C11, witness: a `ProgressMsg` on the initial model is none of
`FinishedMsg`, `ErrorMsg`, `FileInfoMsg`, and leaves all four fields as they
were. -/
theorem Update_frame_witness :
    ((Update demoEnv (NewReceiverUI demoEnv) (Msg.ProgressMsg 0.5)).1.receivedFiles
          = (NewReceiverUI demoEnv).receivedFiles ∧
        (Update demoEnv (NewReceiverUI demoEnv) (Msg.ProgressMsg 0.5)).1.decompressedPayloadSize
          = (NewReceiverUI demoEnv).decompressedPayloadSize) ∧
      (Update demoEnv (NewReceiverUI demoEnv) (Msg.ProgressMsg 0.5)).1.errorMessage
        = (NewReceiverUI demoEnv).errorMessage ∧
      (Update demoEnv (NewReceiverUI demoEnv) (Msg.ProgressMsg 0.5)).1.payloadSize
        = (NewReceiverUI demoEnv).payloadSize :=
  ⟨(Update_frame demoEnv (NewReceiverUI demoEnv) (Msg.ProgressMsg 0.5)).1 rfl,
    (Update_frame demoEnv (NewReceiverUI demoEnv) (Msg.ProgressMsg 0.5)).2.1 rfl,
    (Update_frame demoEnv (NewReceiverUI demoEnv) (Msg.ProgressMsg 0.5)).2.2 rfl⟩

/-! ## Completion and start (C12, C13) -/

/-- C12: from any model, `Update` with `FinishedMsg fs n` returns phase
`showFinished`, `receivedFiles = fs` (the same list, in the same order),
`decompressedPayloadSize = n`, the progress bar as changed by
`SetPercent(1.0)`, and the command that `SetPercent(1.0)` returns. -/
theorem FinishedMsg_stores_files_and_size (env : Env) (m : receiverUIModel) (fs : List String) (n : Int) :
    (Update env m (Msg.FinishedMsg fs n)).1.state = showFinished ∧
      (Update env m (Msg.FinishedMsg fs n)).1.receivedFiles = fs ∧
      (Update env m (Msg.FinishedMsg fs n)).1.decompressedPayloadSize = n ∧
      (Update env m (Msg.FinishedMsg fs n)).1.progressBar
        = (env.progressSetPercent m.progressBar 1.0).1 ∧
      (Update env m (Msg.FinishedMsg fs n)).2 = (env.progressSetPercent m.progressBar 1.0).2 :=
  ⟨rfl, rfl, rfl, rfl, rfl⟩

/-- C13: the model built by `NewReceiverUI` is in phase `showEstablishing`,
with no received files, `payloadSize = 0`, `decompressedPayloadSize = 0`, an
empty `errorMessage`, the configured progress bar, and a fresh spinner in the
primary colour with the symbol set `WaitingSpinner`. -/
theorem NewReceiverUI_fields (env : Env) :
    (NewReceiverUI env).state = showEstablishing ∧
      (NewReceiverUI env).receivedFiles = [] ∧
      (NewReceiverUI env).payloadSize = 0 ∧
      (NewReceiverUI env).decompressedPayloadSize = 0 ∧
      (NewReceiverUI env).errorMessage = "" ∧
      (NewReceiverUI env).progressBar = env.ProgressBar ∧
      (NewReceiverUI env).spinner.Spinner = env.WaitingSpinner ∧
      (NewReceiverUI env).spinner =
        { env.spinnerNewModel with
          Style := { foreground := some env.PRIMARY_COLOR }, Spinner := env.WaitingSpinner } := by
  unfold NewReceiverUI resetSpinner
  simp

/-! ## Progress reports

`Update` hands `float64(msg.Progress)` to the progress bar's `SetPercent` as
it is and stores what `SetPercent` leaves in the bar; `receiver.go` compares
or bounds the fraction nowhere. -/

theorem Update_ProgressMsg_progressBar (env : Env) (m : receiverUIModel) (f : Float) :
    (Update env m (Msg.ProgressMsg f)).1.progressBar = (env.progressSetPercent m.progressBar f).1 ∧
      (Update env m (Msg.ProgressMsg f)).2 = (env.progressSetPercent m.progressBar f).2 :=
  ⟨rfl, rfl⟩

/-! ## Keys, unmatched messages, resize (C15, C16, C20) -/

/-- C15: for every model and every key message whose lower-cased string is
not among `QuitKeys`, `Update` returns the model unchanged and the nil
command. -/
theorem Update_KeyMsg_other (env : Env) (m : receiverUIModel) (s : String)
    (h : env.ToLower s ∉ env.QuitKeys) :
    Update env m (Msg.KeyMsg s) = (m, Cmd.nil) := by
  have hc : Contains env.QuitKeys (env.ToLower s) = false := by
    unfold Contains
    simpa using h
  simp [Update, hc]

/-- C15, witness: with the quit keys `ctrl+c`, `q`, `esc`, the key `X` leaves
the initial model as it is and returns no command. -/
theorem Update_KeyMsg_other_witness :
    Update demoEnv (NewReceiverUI demoEnv) (Msg.KeyMsg "X") = (NewReceiverUI demoEnv, Cmd.nil) :=
  Update_KeyMsg_other demoEnv (NewReceiverUI demoEnv) "X" (by decide)

/-- C16: for every model and every message that is none of `FileInfoMsg`,
`ProgressMsg`, `FinishedMsg`, `ErrorMsg`, `tea.KeyMsg`, `tea.WindowSizeMsg`,
`progress.FrameMsg`, `Update` returns the model with `spinner` replaced by the
spinner's own `Update` on that message, together with the spinner's command;
`state`, `payloadSize`, `decompressedPayloadSize`, `receivedFiles`,
`errorMessage` and `progressBar` are unchanged. -/
theorem Update_default (env : Env) (m : receiverUIModel) (msg : Msg)
    (h1 : msg.isFileInfo = false) (h2 : msg.isProgress = false) (h3 : msg.isFinished = false)
    (h4 : msg.isError = false) (h5 : msg.isKey = false) (h6 : msg.isWindowSize = false)
    (h7 : msg.isFrame = false) :
    Update env m msg =
        ({ m with spinner := (env.spinnerUpdate m.spinner msg).1 },
          (env.spinnerUpdate m.spinner msg).2) ∧
      (Update env m msg).1.spinner = (env.spinnerUpdate m.spinner msg).1 ∧
      (Update env m msg).2 = (env.spinnerUpdate m.spinner msg).2 ∧
      (Update env m msg).1.state = m.state ∧
      (Update env m msg).1.payloadSize = m.payloadSize ∧
      (Update env m msg).1.decompressedPayloadSize = m.decompressedPayloadSize ∧
      (Update env m msg).1.receivedFiles = m.receivedFiles ∧
      (Update env m msg).1.errorMessage = m.errorMessage ∧
      (Update env m msg).1.progressBar = m.progressBar := by
  cases msg with
  | FileInfoMsg b => simp [Msg.isFileInfo] at h1
  | ProgressMsg f => simp [Msg.isProgress] at h2
  | FinishedMsg fs n => simp [Msg.isFinished] at h3
  | ErrorMsg e => simp [Msg.isError] at h4
  | KeyMsg s => simp [Msg.isKey] at h5
  | WindowSizeMsg w h => simp [Msg.isWindowSize] at h6
  | FrameMsg i t => simp [Msg.isFrame] at h7
  | spinnerTickMsg i t => exact ⟨rfl, rfl, rfl, rfl, rfl, rfl, rfl, rfl, rfl⟩
  | unknown k => exact ⟨rfl, rfl, rfl, rfl, rfl, rfl, rfl, rfl, rfl⟩

/-- C16, witness: a spinner tick on the initial model advances the spinner
through the spinner's own `Update` and keeps the phase. -/
theorem Update_default_witness :
    (Update demoEnv (NewReceiverUI demoEnv) (Msg.spinnerTickMsg 1 0)).1.spinner
        = (demoEnv.spinnerUpdate (NewReceiverUI demoEnv).spinner (Msg.spinnerTickMsg 1 0)).1 ∧
      (Update demoEnv (NewReceiverUI demoEnv) (Msg.spinnerTickMsg 1 0)).2
        = (demoEnv.spinnerUpdate (NewReceiverUI demoEnv).spinner (Msg.spinnerTickMsg 1 0)).2 ∧
      (Update demoEnv (NewReceiverUI demoEnv) (Msg.spinnerTickMsg 1 0)).1.state
        = (NewReceiverUI demoEnv).state :=
  have h := Update_default demoEnv (NewReceiverUI demoEnv) (Msg.spinnerTickMsg 1 0)
    rfl rfl rfl rfl rfl rfl rfl
  ⟨h.2.1, h.2.2.1, h.2.2.2.1⟩

/-- C20: `Update` with `WindowSizeMsg` of width `w` sets `progressBar.Width`
to the smaller of `w - 2 * PADDING - 4` (computed in `int`) and `MAX_WIDTH`,
which is `min (w - 2 * PADDING - 4) MAX_WIDTH` whenever the subtraction does
not leave the range of `int`; it changes no other field of the progress bar
or of the model, and returns the nil command. -/
theorem WindowSizeMsg_sets_only_Width (env : Env) (m : receiverUIModel) (w h : Int) :
    (Update env m (Msg.WindowSizeMsg w h)).1.progressBar.Width
        = min (wrapInt (w - 2 * env.PADDING - 4)) env.MAX_WIDTH ∧
      (inIntRange (w - 2 * env.PADDING - 4) →
        (Update env m (Msg.WindowSizeMsg w h)).1.progressBar.Width
          = min (w - 2 * env.PADDING - 4) env.MAX_WIDTH) ∧
      (Update env m (Msg.WindowSizeMsg w h)).1 =
        { m with progressBar :=
            { m.progressBar with Width := min (wrapInt (w - 2 * env.PADDING - 4)) env.MAX_WIDTH } } ∧
      (Update env m (Msg.WindowSizeMsg w h)).1.progressBar.percentShown
        = m.progressBar.percentShown ∧
      (Update env m (Msg.WindowSizeMsg w h)).1.progressBar.targetPercent
        = m.progressBar.targetPercent ∧
      (Update env m (Msg.WindowSizeMsg w h)).1.state = m.state ∧
      (Update env m (Msg.WindowSizeMsg w h)).1.payloadSize = m.payloadSize ∧
      (Update env m (Msg.WindowSizeMsg w h)).1.decompressedPayloadSize
        = m.decompressedPayloadSize ∧
      (Update env m (Msg.WindowSizeMsg w h)).1.receivedFiles = m.receivedFiles ∧
      (Update env m (Msg.WindowSizeMsg w h)).1.errorMessage = m.errorMessage ∧
      (Update env m (Msg.WindowSizeMsg w h)).1.spinner = m.spinner ∧
      (Update env m (Msg.WindowSizeMsg w h)).2 = Cmd.nil := by
  have hw : (Update env m (Msg.WindowSizeMsg w h)).1.progressBar.Width
      = min (wrapInt (w - 2 * env.PADDING - 4)) env.MAX_WIDTH := by
    rw [Update_WindowSizeMsg_Width]
    split_ifs with hgt
    · exact (min_eq_right (le_of_lt hgt)).symm
    · exact (min_eq_left (not_lt.mp hgt)).symm
  refine ⟨hw, ?_, ?_, rfl, rfl, rfl, rfl, rfl, rfl, rfl, rfl, rfl⟩
  · intro hin
    rw [hw, wrapInt_of_inIntRange _ hin]
  · have hupd : (Update env m (Msg.WindowSizeMsg w h)).1 =
        { m with progressBar :=
            { m.progressBar with
              Width := (Update env m (Msg.WindowSizeMsg w h)).1.progressBar.Width } } := rfl
    rw [hupd, hw]

/-- C20, witness: with `PADDING = 2` and `MAX_WIDTH = 80`, widths 50 and 200
give the bar widths `min 42 80` and `min 192 80`. -/
theorem WindowSizeMsg_sets_only_Width_witness :
    (Update demoEnv (NewReceiverUI demoEnv) (Msg.WindowSizeMsg 50 30)).1.progressBar.Width
        = min (50 - 2 * demoEnv.PADDING - 4) demoEnv.MAX_WIDTH ∧
      (Update demoEnv (NewReceiverUI demoEnv) (Msg.WindowSizeMsg 200 30)).1.progressBar.Width
        = min (200 - 2 * demoEnv.PADDING - 4) demoEnv.MAX_WIDTH :=
  ⟨(WindowSizeMsg_sets_only_Width demoEnv (NewReceiverUI demoEnv) 50 30).2.1 (by decide),
    (WindowSizeMsg_sets_only_Width demoEnv (NewReceiverUI demoEnv) 200 30).2.1 (by decide)⟩

/-! ## Phases outside the four constants (C17, C18) -/

/-- C17: for every model whose phase is none of `showEstablishing`,
`showReceivingProgress`, `showFinished`, `showError`, `View` returns the empty
string. -/
theorem View_of_undefined_phase (env : Env) (m : receiverUIModel)
    (h : ¬ isDefinedPhase m.state) : View env m = "" := by
  unfold isDefinedPhase at h
  push_neg at h
  obtain ⟨h0, h1, h2, h3⟩ := h
  unfold View
  simp [h0, h1, h2, h3]

/-- C17, witness: the initial model with its phase overwritten by 7 renders
as the empty string. -/
theorem View_of_undefined_phase_witness :
    View demoEnv { NewReceiverUI demoEnv with state := 7 } = "" :=
  View_of_undefined_phase demoEnv { NewReceiverUI demoEnv with state := 7 } (by decide)

theorem isDefinedPhase_nextPhase (p : uiState) (msg : Msg) (h : isDefinedPhase p) :
    isDefinedPhase (nextPhase p msg) := by
  cases msg with
  | FileInfoMsg b => exact Or.inr (Or.inl rfl)
  | ProgressMsg f => exact Or.inr (Or.inl rfl)
  | FinishedMsg fs n => exact Or.inr (Or.inr (Or.inl rfl))
  | ErrorMsg e => exact Or.inr (Or.inr (Or.inr rfl))
  | _ => exact h

theorem runMsgs_isDefinedPhase (env : Env) (msgs : List Msg) :
    ∀ m : receiverUIModel, isDefinedPhase m.state → isDefinedPhase (runMsgs env m msgs).state := by
  induction msgs with
  | nil =>
    intro m hm
    exact hm
  | cons x rest ih =>
    intro m hm
    have hrun : runMsgs env m (x :: rest) = runMsgs env (Update env m x).1 rest := rfl
    rw [hrun]
    apply ih
    rw [Update_state]
    exact isDefinedPhase_nextPhase _ x hm

/-- C18: in every state reached from the initial model by a finite sequence
of messages, the phase is one of `showEstablishing`, `showReceivingProgress`,
`showFinished`, `showError`; so the condition under which `View` falls to its
default branch (the phase differs from all four) never holds there. -/
theorem reachable_phase_defined (env : Env) (msgs : List Msg) :
    isDefinedPhase (runMsgs env (NewReceiverUI env) msgs).state ∧
      ¬ ((runMsgs env (NewReceiverUI env) msgs).state ≠ showEstablishing ∧
        (runMsgs env (NewReceiverUI env) msgs).state ≠ showReceivingProgress ∧
        (runMsgs env (NewReceiverUI env) msgs).state ≠ showFinished ∧
        (runMsgs env (NewReceiverUI env) msgs).state ≠ showError) := by
  have h0 : isDefinedPhase (NewReceiverUI env).state := by
    rw [(NewReceiverUI_spinner env).1]
    exact Or.inl rfl
  have h := runMsgs_isDefinedPhase env msgs _ h0
  refine ⟨h, ?_⟩
  rintro ⟨n0, n1, n2, n3⟩
  rcases h with h | h | h | h
  · exact n0 h
  · exact n1 h
  · exact n2 h
  · exact n3 h

/-! ## Repeated file information (C19) -/

theorem FileInfoMsg_in_receiving_noop (env : Env) (m : receiverUIModel) (b : Int)
    (hs : m.state = showReceivingProgress) (hp : m.payloadSize = b) :
    Update env m (Msg.FileInfoMsg b) = (m, Cmd.nil) := by
  cases m
  simp only at hs hp
  subst hs hp
  simp [Update]

/-- C19: for every model `m` and byte count `b`, a second `Update` with
`FileInfoMsg b` returns the model that the first one returned, and returns the
nil command. -/
theorem FileInfoMsg_twice_same_model (env : Env) (m : receiverUIModel) (b : Int) :
    (Update env (Update env m (Msg.FileInfoMsg b)).1 (Msg.FileInfoMsg b)).1
        = (Update env m (Msg.FileInfoMsg b)).1 ∧
      (Update env (Update env m (Msg.FileInfoMsg b)).1 (Msg.FileInfoMsg b)).2 = Cmd.nil := by
  have h := FileInfoMsg_in_receiving_noop env (Update env m (Msg.FileInfoMsg b)).1 b
    (Update_state env m (Msg.FileInfoMsg b)) (Update_FileInfoMsg_payloadSize env m b)
  rw [h]
  exact ⟨rfl, rfl⟩

end Tui
